import Mathlib

/-!
Verification of the 32-bit ARM backend of a DWARF-CFI stack unwinder
(src/unwinder/arch/arm.rs).

The backend consists of:
* constants describing the register file (lines 7-13);
* the `Context` struct, `#[repr(C)]` with `gp : [usize; 16]` followed by
  `fp : [usize; 32]` (lines 15-20), deriving `Clone` and `Default`;
* `ops::Index` / `ops::IndexMut` implementations resolving a gimli
  `Register` identifier (a `u16`) by range test (lines 41-65);
* naked-function primitives `save_context` and `restore_context` whose
  bodies are inline-assembly store/load sequences generated by the
  `save_regs!` / `restore_regs!` macros (lines 67-168), with the
  floating-point part gated on `cfg(target_feature = "vfp2")`.

Shallow embedding used here:
* machine words (`usize`, 4 bytes on arm32) are `Nat`; register values
  are only moved, never computed with, so no wrap-around modelling is
  needed;
* the `Context` struct is a pair of total functions `Nat → Nat`
  (slots 0-15 of `gp`, 0-31 of `fp` are the meaningful ones);
* the `u16` register identifier is a `Nat`; the source match arms
  `0..=GP_LAST_REG_NUM`, `FP_REG_NUM_OFFSET..=FP_LAST_REG_NUM`, `_` are
  range tests on that `Nat`, and the `unimplemented!()` arm is the
  `invalid` result;
* the inline assembly is transcribed instruction by instruction into a
  `List Instr` and executed by a small-step machine whose state is a
  general-purpose register bank, a floating-point register bank, a
  word-granular byte-addressed memory, and an optional branch target
  (set by `bx`).  The AAPCS detail needed: the single pointer argument
  of `restore_context` arrives in r0, and the sret return slot pointer
  of `save_context` arrives in r0.
-/

set_option maxHeartbeats 2000000

namespace UnwindingArm

/-- Source line 7: `pub const MAX_REG_RULES: usize = 107;`. -/
def MAX_REG_RULES : Nat := 107

/-- Source line 9: `const GP_REGS: u16 = 16;`. -/
def GP_REGS : Nat := 16

/-- Source line 10: `const GP_LAST_REG_NUM: u16 = GP_REGS - 1;`. -/
def GP_LAST_REG_NUM : Nat := GP_REGS - 1

/-- Source line 11: `const FP_REGS: u16 = 32;`. -/
def FP_REGS : Nat := 32

/-- Source line 12: `const FP_REG_NUM_OFFSET: u16 = 256;`. -/
def FP_REG_NUM_OFFSET : Nat := 256

/-- Source line 13: `const FP_LAST_REG_NUM: u16 = FP_REG_NUM_OFFSET + FP_REGS - 1;`. -/
def FP_LAST_REG_NUM : Nat := FP_REG_NUM_OFFSET + FP_REGS - 1

/-- The `Context` struct (source lines 15-20): `#[repr(C)]` with field
`gp : [usize; GP_REGS]` followed by field `fp : [usize; FP_REGS]`.
Both fields are declared unconditionally: no `cfg` attribute appears on
the struct or on either field, so the layout is the same in every build
configuration.  Arrays are modelled as total functions; only indices
below 16 (resp. 32) are meaningful. -/
structure Context where
  gp : Nat → Nat
  fp : Nat → Nat

/-- The `Default` instance derived on `Context` (source line 16):
both arrays zero-initialized. -/
def Context.zeroed : Context := ⟨fun _ => 0, fun _ => 0⟩

/-- The declared field list of `Context` as written in the source
(field name, slot count): `gp` with 16 slots then `fp` with 32 slots.
Because the struct declaration carries no `cfg` gate, this is the field
list of the struct in a build WITH the vfp2 target feature. -/
def contextFieldsVfp2 : List (String × Nat) := [("gp", GP_REGS), ("fp", FP_REGS)]

/-- The declared field list of `Context` in a build WITHOUT the vfp2
target feature.  The struct declaration (source lines 15-20) carries no
`cfg` attribute, so the no-vfp2 build compiles exactly the same two
fields. -/
def contextFieldsNoVfp2 : List (String × Nat) := [("gp", GP_REGS), ("fp", FP_REGS)]

/-- Result of resolving a register identifier, following design note
"Range-partitioned indexing": a tagged variant
GeneralSlot / FloatSlot / Invalid. -/
inductive RegSlot where
  | gpSlot (i : Nat)
  | fpSlot (i : Nat)
  | invalid
deriving DecidableEq

/-- The match of `ops::Index<Register> for Context` (source lines 44-52):
`Register(0..=GP_LAST_REG_NUM)` yields the gp slot `reg.0`,
`Register(FP_REG_NUM_OFFSET..=FP_LAST_REG_NUM)` yields the fp slot
`reg.0 - FP_REG_NUM_OFFSET`, and the wildcard arm is `unimplemented!()`
(modelled as `invalid`). -/
def resolveReg (id : Nat) : RegSlot :=
  if id ≤ GP_LAST_REG_NUM then RegSlot.gpSlot id
  else if FP_REG_NUM_OFFSET ≤ id ∧ id ≤ FP_LAST_REG_NUM then
    RegSlot.fpSlot (id - FP_REG_NUM_OFFSET)
  else RegSlot.invalid

/-- The match of `ops::IndexMut<Register> for Context` (source lines
56-64).  The source repeats the same three arms verbatim in the
`IndexMut` impl, so the resolver is transcribed a second time here and
the two are compared by theorem rather than shared by definition. -/
def resolveRegMut (id : Nat) : RegSlot :=
  if id ≤ GP_LAST_REG_NUM then RegSlot.gpSlot id
  else if FP_REG_NUM_OFFSET ≤ id ∧ id ≤ FP_LAST_REG_NUM then
    RegSlot.fpSlot (id - FP_REG_NUM_OFFSET)
  else RegSlot.invalid

/-- `Context::index` (source lines 44-52): read the slot the identifier
resolves to; `none` models the `unimplemented!()` panic. -/
def Context.index (c : Context) (id : Nat) : Option Nat :=
  match resolveReg id with
  | RegSlot.gpSlot i => some (c.gp i)
  | RegSlot.fpSlot i => some (c.fp i)
  | RegSlot.invalid => none

/-- `Context::index_mut` used as a store (source lines 56-64): write `v`
through the slot reference the identifier resolves to; `none` models the
`unimplemented!()` panic. -/
def Context.indexSet (c : Context) (id v : Nat) : Option Context :=
  match resolveRegMut id with
  | RegSlot.gpSlot i => some { c with gp := Function.update c.gp i v }
  | RegSlot.fpSlot i => some { c with fp := Function.update c.fp i v }
  | RegSlot.invalid => none

/-- One inline-assembly instruction of the save/restore sequences:
`str rd, [r base, off]`, `vstr s sd, [r base, off]`,
`ldr rd, [r base, off]`, `vldr s sd, [r base, off]`, or `bx rn`. -/
inductive Instr where
  | strGp (rd base off : Nat)
  | strFp (sd base off : Nat)
  | ldrGp (rd base off : Nat)
  | ldrFp (sd base off : Nat)
  | bx (rn : Nat)
deriving DecidableEq

/-- Live hardware register banks: `r` are the sixteen general-purpose
registers r0-r15, `s` are the thirty-two VFP single registers s0-s31
(modelled as total functions over register numbers). -/
structure Live where
  r : Nat → Nat
  s : Nat → Nat

/-- Word-granular byte-addressed memory: `m a` is the 4-byte word whose
first byte sits at address `a`.  All addresses formed by the code are
base + multiple-of-4 offsets, so distinct offsets never overlap. -/
abbrev Mem := Nat → Nat

/-- Machine state for executing the assembly: live registers, memory,
and the branch target once a `bx` has executed. -/
structure MState where
  live : Live
  mem : Mem
  pc : Option Nat

/-- Effect of one instruction: stores write the word at
base-register-value + offset; loads write the destination register from
that word (the base register is read before the destination is written,
as on the hardware); `bx rn` branches to the address in `rn`. -/
def step (st : MState) : Instr → MState
  | Instr.strGp rd b off =>
      { st with mem := Function.update st.mem (st.live.r b + off) (st.live.r rd) }
  | Instr.strFp sd b off =>
      { st with mem := Function.update st.mem (st.live.r b + off) (st.live.s sd) }
  | Instr.ldrGp rd b off =>
      { st with live := { st.live with
          r := Function.update st.live.r rd (st.mem (st.live.r b + off)) } }
  | Instr.ldrFp sd b off =>
      { st with live := { st.live with
          s := Function.update st.live.s sd (st.mem (st.live.r b + off)) } }
  | Instr.bx rn => { st with pc := some (st.live.r rn) }

/-- Execute an instruction sequence in order. -/
def run (st : MState) (code : List Instr) : MState := code.foldl step st

/-- The expansion of `save_regs!(gp)` (source lines 68-81):
`str rN, [r0, 0x4*N]` for N = 4,5,6,7,8,9,10,11,13,14. -/
def saveRegsGp : List Instr :=
  [Instr.strGp 4 0 (4*4), Instr.strGp 5 0 (4*5), Instr.strGp 6 0 (4*6),
   Instr.strGp 7 0 (4*7), Instr.strGp 8 0 (4*8), Instr.strGp 9 0 (4*9),
   Instr.strGp 10 0 (4*10), Instr.strGp 11 0 (4*11),
   Instr.strGp 13 0 (4*13), Instr.strGp 14 0 (4*14)]

/-- The expansion of `save_regs!(fp)` (source lines 82-101) with
`fp_offset = GP_REGS` (source line 148):
`vstr sN, [r0, 0x4*(GP_REGS+N)]` for N = 16..31. -/
def saveRegsFp : List Instr :=
  [Instr.strFp 16 0 (4*(GP_REGS+16)), Instr.strFp 17 0 (4*(GP_REGS+17)),
   Instr.strFp 18 0 (4*(GP_REGS+18)), Instr.strFp 19 0 (4*(GP_REGS+19)),
   Instr.strFp 20 0 (4*(GP_REGS+20)), Instr.strFp 21 0 (4*(GP_REGS+21)),
   Instr.strFp 22 0 (4*(GP_REGS+22)), Instr.strFp 23 0 (4*(GP_REGS+23)),
   Instr.strFp 24 0 (4*(GP_REGS+24)), Instr.strFp 25 0 (4*(GP_REGS+25)),
   Instr.strFp 26 0 (4*(GP_REGS+26)), Instr.strFp 27 0 (4*(GP_REGS+27)),
   Instr.strFp 28 0 (4*(GP_REGS+28)), Instr.strFp 29 0 (4*(GP_REGS+29)),
   Instr.strFp 30 0 (4*(GP_REGS+30)), Instr.strFp 31 0 (4*(GP_REGS+31))]

/-- The expansion of `restore_regs!(gp)` (source lines 105-118):
`ldr rN, [r0, 0x4*N]` for N = 4,5,6,7,8,9,10,11,13,14. -/
def restoreRegsGp : List Instr :=
  [Instr.ldrGp 4 0 (4*4), Instr.ldrGp 5 0 (4*5), Instr.ldrGp 6 0 (4*6),
   Instr.ldrGp 7 0 (4*7), Instr.ldrGp 8 0 (4*8), Instr.ldrGp 9 0 (4*9),
   Instr.ldrGp 10 0 (4*10), Instr.ldrGp 11 0 (4*11),
   Instr.ldrGp 13 0 (4*13), Instr.ldrGp 14 0 (4*14)]

/-- The expansion of `restore_regs!(fp)` (source lines 119-138) with
`fp_offset = GP_REGS` (source line 162):
`vldr sN, [r0, 0x4*(GP_REGS+N)]` for N = 16..31. -/
def restoreRegsFp : List Instr :=
  [Instr.ldrFp 16 0 (4*(GP_REGS+16)), Instr.ldrFp 17 0 (4*(GP_REGS+17)),
   Instr.ldrFp 18 0 (4*(GP_REGS+18)), Instr.ldrFp 19 0 (4*(GP_REGS+19)),
   Instr.ldrFp 20 0 (4*(GP_REGS+20)), Instr.ldrFp 21 0 (4*(GP_REGS+21)),
   Instr.ldrFp 22 0 (4*(GP_REGS+22)), Instr.ldrFp 23 0 (4*(GP_REGS+23)),
   Instr.ldrFp 24 0 (4*(GP_REGS+24)), Instr.ldrFp 25 0 (4*(GP_REGS+25)),
   Instr.ldrFp 26 0 (4*(GP_REGS+26)), Instr.ldrFp 27 0 (4*(GP_REGS+27)),
   Instr.ldrFp 28 0 (4*(GP_REGS+28)), Instr.ldrFp 29 0 (4*(GP_REGS+29)),
   Instr.ldrFp 30 0 (4*(GP_REGS+30)), Instr.ldrFp 31 0 (4*(GP_REGS+31))]

/-- The body of `save_context` in a build WITH the vfp2 target feature
(source lines 145-150): `concat!(save_regs!(gp), save_regs!(fp), "bx lr")`. -/
def saveContextVfp2 : List Instr := saveRegsGp ++ saveRegsFp ++ [Instr.bx 14]

/-- The body of `save_context` in a build WITHOUT the vfp2 target
feature (source lines 151-152): `concat!(save_regs!(gp), "bx lr")`. -/
def saveContextNoVfp2 : List Instr := saveRegsGp ++ [Instr.bx 14]

/-- The body of `restore_context` in a build WITH the vfp2 target
feature (source lines 159-164):
`concat!(restore_regs!(gp), restore_regs!(fp), "bx lr")`. -/
def restoreContextVfp2 : List Instr := restoreRegsGp ++ restoreRegsFp ++ [Instr.bx 14]

/-- The body of `restore_context` in a build WITHOUT the vfp2 target
feature (source lines 165-166): `concat!(restore_regs!(gp), "bx lr")`. -/
def restoreContextNoVfp2 : List Instr := restoreRegsGp ++ [Instr.bx 14]

/-- Byte offset of general-purpose slot `i` inside `Context` under
`#[repr(C)]` on arm32 (usize = 4 bytes): the `gp` array starts the
struct, so slot `i` sits at byte `4*i`. -/
def gpSlotOffset (i : Nat) : Nat := 4 * i

/-- Byte offset of floating-point slot `j` inside `Context` under
`#[repr(C)]` on arm32: the `fp` array follows the 16-word `gp` array,
so slot `j` sits at byte `4*(GP_REGS + j)`. -/
def fpSlotOffset (j : Nat) : Nat := 4 * (GP_REGS + j)

/-- Byte offset of the slot a resolved register reference denotes, under
the `#[repr(C)]` layout; `none` for the invalid case. -/
def slotOffset : RegSlot → Option Nat
  | RegSlot.gpSlot i => some (gpSlotOffset i)
  | RegSlot.fpSlot j => some (fpSlotOffset j)
  | RegSlot.invalid => none

/-- Read a `Context` value out of memory laid out at base address `p`,
following the `#[repr(C)]` slot offsets. -/
def memCtx (m : Mem) (p : Nat) : Context :=
  ⟨fun i => m (p + gpSlotOffset i), fun j => m (p + fpSlotOffset j)⟩

/-- `save_context` as the engine sees it in a vfp2 build: the caller
passes the address of the `Context`-sized sret return slot in r0 (AAPCS
struct return), the naked body runs, and the returned `Context` is what
the return slot then holds.  `m` is the memory before the call (the
return slot is NOT zeroed by the callee: slots the body never stores
keep the bytes `m` already held). -/
def captureVfp2 (m : Mem) (live : Live) : Context :=
  memCtx (run ⟨live, m, none⟩ saveContextVfp2).mem (live.r 0)

/-- `save_context` as the engine sees it in a no-vfp2 build. -/
def captureNoVfp2 (m : Mem) (live : Live) : Context :=
  memCtx (run ⟨live, m, none⟩ saveContextNoVfp2).mem (live.r 0)

/-- The round-trip experiment of the spec (vfp2 build): `restore_context`
runs with the `Context` pointer in r0 (so the restored `Context` is
`memCtx m (live.r 0)`); at the resumption point the engine immediately
invokes `save_context` with a fresh sret return-slot pointer `p2` in r0
(every other live register is exactly as `restore_context` left it); the
result is the `Context` the second call returns. -/
def restoreThenCaptureVfp2 (m : Mem) (live : Live) (p2 : Nat) : Context :=
  let st1 := run ⟨live, m, none⟩ restoreContextVfp2
  memCtx (run ⟨{ st1.live with r := Function.update st1.live.r 0 p2 },
               st1.mem, none⟩ saveContextVfp2).mem p2

/-- The byte offset of the memory access an instruction performs, if it
is a load or store. -/
def accessOff : Instr → Option Nat
  | Instr.strGp _ _ o => some o
  | Instr.strFp _ _ o => some o
  | Instr.ldrGp _ _ o => some o
  | Instr.ldrFp _ _ o => some o
  | Instr.bx _ => none

/-- Whether an instruction accesses a floating-point register
(a `vstr` or `vldr`). -/
def isFpAccess : Instr → Bool
  | Instr.strFp _ _ _ => true
  | Instr.ldrFp _ _ _ => true
  | _ => false

/-- The general-purpose register an instruction writes, if any
(only `ldr` writes a general-purpose register). -/
def gpDest : Instr → Option Nat
  | Instr.ldrGp rd _ _ => some rd
  | _ => none

/-- The base address register of a memory access, if the instruction is
one. -/
def baseReg : Instr → Option Nat
  | Instr.strGp _ b _ => some b
  | Instr.strFp _ b _ => some b
  | Instr.ldrGp _ b _ => some b
  | Instr.ldrFp _ b _ => some b
  | Instr.bx _ => none

/-- Check that one instruction addresses the `Context` through r0 at
exactly the `#[repr(C)]` byte offset of the register's slot: a gp
access of rN must use offset `gpSlotOffset N` and an fp access of sN
must use offset `fpSlotOffset N`. -/
def usesReprCOffsets : Instr → Bool
  | Instr.strGp rd b o => b == 0 && o == gpSlotOffset rd
  | Instr.strFp sd b o => b == 0 && o == fpSlotOffset sd
  | Instr.ldrGp rd b o => b == 0 && o == gpSlotOffset rd
  | Instr.ldrFp sd b o => b == 0 && o == fpSlotOffset sd
  | Instr.bx _ => true

end UnwindingArm

namespace UnwindingArm

/-! Helper lemmas (numeric values of the source constants, and the
success condition of the indexing operations). -/

lemma gp_last_eq : GP_LAST_REG_NUM = 15 := rfl

lemma fp_off_eq : FP_REG_NUM_OFFSET = 256 := rfl

lemma fp_last_eq : FP_LAST_REG_NUM = 287 := rfl

lemma index_isSome_iff (c : Context) (id : Nat) :
    ((Context.index c id).isSome = true) ↔
      (id ≤ GP_LAST_REG_NUM ∨ (FP_REG_NUM_OFFSET ≤ id ∧ id ≤ FP_LAST_REG_NUM)) := by
  unfold Context.index resolveReg
  split_ifs with h1 h2 <;> simp [*]

lemma indexSet_isSome_iff (c : Context) (id v : Nat) :
    ((Context.indexSet c id v).isSome = true) ↔
      (id ≤ GP_LAST_REG_NUM ∨ (FP_REG_NUM_OFFSET ≤ id ∧ id ≤ FP_LAST_REG_NUM)) := by
  unfold Context.indexSet resolveRegMut
  split_ifs with h1 h2 <;> simp [*]

/-- Claim C2: for every identifier in 0..=15 the index operation (and
its mutable variant, transcribed separately from the separately written
source match) resolves to general-purpose slot id; for every identifier
in 256..=287 it resolves to floating-point slot id-256; the two ranges
are disjoint; exactly 48 identifiers are valid (48 below 288, and every
identifier from 288 up, which covers the rest of the u16 domain, is
rejected); identifiers in the gap 16..=255 are rejected; and the mutable
variant partitions identically to the read variant. -/
theorem index_range_partition (c : Context) :
    (∀ id : Nat, id ≤ GP_LAST_REG_NUM →
      resolveReg id = RegSlot.gpSlot id ∧ resolveRegMut id = RegSlot.gpSlot id ∧
      Context.index c id = some (c.gp id)) ∧
    (∀ id : Nat, FP_REG_NUM_OFFSET ≤ id → id ≤ FP_LAST_REG_NUM →
      resolveReg id = RegSlot.fpSlot (id - FP_REG_NUM_OFFSET) ∧
      resolveRegMut id = RegSlot.fpSlot (id - FP_REG_NUM_OFFSET) ∧
      Context.index c id = some (c.fp (id - FP_REG_NUM_OFFSET))) ∧
    (∀ id : Nat, ¬(id ≤ GP_LAST_REG_NUM ∧ FP_REG_NUM_OFFSET ≤ id ∧ id ≤ FP_LAST_REG_NUM)) ∧
    ((Finset.range 288).filter (fun id => resolveReg id ≠ RegSlot.invalid)).card = 48 ∧
    (∀ id : Nat, GP_LAST_REG_NUM < id → id < FP_REG_NUM_OFFSET →
      resolveReg id = RegSlot.invalid ∧ resolveRegMut id = RegSlot.invalid) ∧
    (∀ id : Nat, FP_LAST_REG_NUM < id →
      resolveReg id = RegSlot.invalid ∧ resolveRegMut id = RegSlot.invalid) ∧
    (∀ id : Nat, resolveReg id = resolveRegMut id) := by
  refine ⟨?_, ?_, ?_, by decide, ?_, ?_, fun id => rfl⟩
  · intro id h
    refine ⟨?_, ?_, ?_⟩ <;> simp [resolveReg, resolveRegMut, Context.index, h]
  · intro id h1 h2
    have hg : ¬ id ≤ GP_LAST_REG_NUM := by
      simp only [gp_last_eq]; simp only [fp_off_eq] at h1; omega
    refine ⟨?_, ?_, ?_⟩
    · unfold resolveReg; rw [if_neg hg, if_pos ⟨h1, h2⟩]
    · unfold resolveRegMut; rw [if_neg hg, if_pos ⟨h1, h2⟩]
    · unfold Context.index resolveReg; rw [if_neg hg, if_pos ⟨h1, h2⟩]
  · intro id h
    obtain ⟨a, b, -⟩ := h
    simp only [gp_last_eq] at a
    simp only [fp_off_eq] at b
    omega
  · intro id h1 h2
    simp only [gp_last_eq] at h1
    simp only [fp_off_eq] at h2
    constructor
    · unfold resolveReg
      rw [if_neg (by simp only [gp_last_eq]; omega),
        if_neg (by simp only [fp_off_eq, fp_last_eq]; omega)]
    · unfold resolveRegMut
      rw [if_neg (by simp only [gp_last_eq]; omega),
        if_neg (by simp only [fp_off_eq, fp_last_eq]; omega)]
  · intro id h1
    simp only [fp_last_eq] at h1
    constructor
    · unfold resolveReg
      rw [if_neg (by simp only [gp_last_eq]; omega),
        if_neg (by simp only [fp_off_eq, fp_last_eq]; omega)]
    · unfold resolveRegMut
      rw [if_neg (by simp only [gp_last_eq]; omega),
        if_neg (by simp only [fp_off_eq, fp_last_eq]; omega)]

/-- Witness for C2: the partition evaluated at identifiers 5 (general
purpose), 260 (floating point), 200 (gap) and 300 (above both ranges). -/
theorem index_range_partition_witness :
    (resolveReg 5 = RegSlot.gpSlot 5) ∧ (resolveReg 260 = RegSlot.fpSlot 4) ∧
    (resolveReg 200 = RegSlot.invalid) ∧ (resolveReg 300 = RegSlot.invalid) := by
  obtain ⟨h1, h2, h3, h4, h5, h6, h7⟩ := index_range_partition Context.zeroed
  exact ⟨(h1 5 (by decide)).1, (h2 260 (by decide) (by decide)).1,
    (h5 200 (by decide) (by decide)).1, (h6 300 (by decide)).1⟩

/-- Claim C9: identifier 200 lies outside both valid ranges, so the
index operation (read and mutable alike) fails fatally (the
`unimplemented!()` arm, modelled as `none`) instead of producing a slot,
and this is the only failure mode: indexing succeeds exactly on the two
valid ranges.  Capture in this model is a total function on machine
states (`save_context` contains only unconditional stores and a return),
so it has no failure case at all. -/
theorem invalid_identifier_fatal (c : Context) (v : Nat) :
    Context.index c 200 = none ∧
    Context.indexSet c 200 v = none ∧
    (∀ id : Nat, ((Context.index c id).isSome = true) ↔
      (id ≤ GP_LAST_REG_NUM ∨ (FP_REG_NUM_OFFSET ≤ id ∧ id ≤ FP_LAST_REG_NUM))) ∧
    (∀ id w : Nat, ((Context.indexSet c id w).isSome = true) ↔
      (id ≤ GP_LAST_REG_NUM ∨ (FP_REG_NUM_OFFSET ≤ id ∧ id ≤ FP_LAST_REG_NUM))) :=
  ⟨rfl, rfl, fun id => index_isSome_iff c id, fun id w => indexSet_isSome_iff c id w⟩

/-- Claim C10 (Scenario A): starting from the zero-initialized Context,
writing slot 13 := 0x1000 and slot 14 := 0x2000 through the mutable
index operation and reading back through the read operation returns
exactly 0x1000 and 0x2000, and an enumeration of all 16 gp slots and all
32 fp slots shows every other slot still 0. -/
theorem scenario_a_write_read :
    ((Context.zeroed.indexSet 13 0x1000).bind (fun c1 =>
      (c1.indexSet 14 0x2000).bind (fun c2 =>
        some ((c2.index 13, c2.index 14),
              (List.range 16).map c2.gp, (List.range 32).map c2.fp)))) =
    some ((some 0x1000, some 0x2000),
          [0, 0, 0, 0, 0, 0, 0, 0, 0, 0, 0, 0, 0, 0x1000, 0x2000, 0],
          List.replicate 32 0) := by decide

/-- Counterexample to claim C4: in the build WITHOUT the vfp2 target
feature the Context still contains the 32-slot float bank — the struct
declaration (source lines 15-20) carries no `cfg` gate, so the field
list of the no-vfp2 build contains ("fp", 32), and the (equally ungated)
index operation resolves floating-point identifier 256 to a live slot
instead of the bank being absent from the type. -/
theorem fp_bank_present_without_vfp2 :
    ("fp", 32) ∈ contextFieldsNoVfp2 ∧ Context.zeroed.index 256 = some 0 :=
  ⟨by decide, rfl⟩

/-- Claim C4 as amended: the Context contains the FloatRegisters bank
with exactly 32 slots in BOTH build configurations — the struct and its
indexing are not gated on the floating-point extension (only the
capture/restore instruction sequences are, see C6); writing and reading
a float slot works identically regardless of the build. -/
theorem fp_bank_unconditional :
    contextFieldsNoVfp2 = contextFieldsVfp2 ∧
    contextFieldsNoVfp2 = [("gp", 16), ("fp", 32)] ∧
    ((Context.zeroed.indexSet 260 7).map (fun c => c.index 260)) = some (some 7) :=
  ⟨rfl, by decide, rfl⟩

end UnwindingArm

namespace UnwindingArm

/-- Counterexample to claim C1: a concrete machine state (Context laid
out at address 0, every live register 0, memory word at byte address a
holding 1000 + a/4, so gp slot i of the Context holds 1000+i and fp
slot j holds 1016+j).  After `restore_context`: general-purpose slot 3
is NOT installed (r3 is still 0, not 1003), floating-point slot 0 is
NOT installed (s0 is still 0, not 1016), and control transfers to
1014 — the address held in slot 14 (the link register), not the 1015
held in the program-counter slot 15. -/
theorem restore_counterexample :
    ((run ⟨⟨fun _ => 0, fun _ => 0⟩, fun a => 1000 + a / 4, none⟩
        restoreContextVfp2).live.r 3 = 0) ∧
    ((memCtx (fun a => 1000 + a / 4) 0).gp 3 = 1003) ∧
    ((run ⟨⟨fun _ => 0, fun _ => 0⟩, fun a => 1000 + a / 4, none⟩
        restoreContextVfp2).live.s 0 = 0) ∧
    ((memCtx (fun a => 1000 + a / 4) 0).fp 0 = 1016) ∧
    ((run ⟨⟨fun _ => 0, fun _ => 0⟩, fun a => 1000 + a / 4, none⟩
        restoreContextVfp2).pc = some 1014) ∧
    ((memCtx (fun a => 1000 + a / 4) 0).gp 14 = 1014) ∧
    ((memCtx (fun a => 1000 + a / 4) 0).gp 15 = 1015) := by
  decide

/-- Claim C1 as amended: `restore_context` in a vfp2 build, given the
Context laid out in memory at the address in r0, installs general-purpose
slots 4-11, 13 and 14 (not all sixteen) and floating-point slots 16-31
(not all thirty-two) into the corresponding live hardware registers, and
transfers control to the address held in slot 14, the link register
(`bx lr`), not to the slot-15 program-counter slot. -/
theorem restore_installs_saved_slots (m : Mem) (live : Live) :
    ((run ⟨live, m, none⟩ restoreContextVfp2).live.r 4 = (memCtx m (live.r 0)).gp 4 ∧
     (run ⟨live, m, none⟩ restoreContextVfp2).live.r 5 = (memCtx m (live.r 0)).gp 5 ∧
     (run ⟨live, m, none⟩ restoreContextVfp2).live.r 6 = (memCtx m (live.r 0)).gp 6 ∧
     (run ⟨live, m, none⟩ restoreContextVfp2).live.r 7 = (memCtx m (live.r 0)).gp 7 ∧
     (run ⟨live, m, none⟩ restoreContextVfp2).live.r 8 = (memCtx m (live.r 0)).gp 8 ∧
     (run ⟨live, m, none⟩ restoreContextVfp2).live.r 9 = (memCtx m (live.r 0)).gp 9 ∧
     (run ⟨live, m, none⟩ restoreContextVfp2).live.r 10 = (memCtx m (live.r 0)).gp 10 ∧
     (run ⟨live, m, none⟩ restoreContextVfp2).live.r 11 = (memCtx m (live.r 0)).gp 11 ∧
     (run ⟨live, m, none⟩ restoreContextVfp2).live.r 13 = (memCtx m (live.r 0)).gp 13 ∧
     (run ⟨live, m, none⟩ restoreContextVfp2).live.r 14 = (memCtx m (live.r 0)).gp 14) ∧
    ((run ⟨live, m, none⟩ restoreContextVfp2).live.s 16 = (memCtx m (live.r 0)).fp 16 ∧
     (run ⟨live, m, none⟩ restoreContextVfp2).live.s 17 = (memCtx m (live.r 0)).fp 17 ∧
     (run ⟨live, m, none⟩ restoreContextVfp2).live.s 18 = (memCtx m (live.r 0)).fp 18 ∧
     (run ⟨live, m, none⟩ restoreContextVfp2).live.s 19 = (memCtx m (live.r 0)).fp 19 ∧
     (run ⟨live, m, none⟩ restoreContextVfp2).live.s 20 = (memCtx m (live.r 0)).fp 20 ∧
     (run ⟨live, m, none⟩ restoreContextVfp2).live.s 21 = (memCtx m (live.r 0)).fp 21 ∧
     (run ⟨live, m, none⟩ restoreContextVfp2).live.s 22 = (memCtx m (live.r 0)).fp 22 ∧
     (run ⟨live, m, none⟩ restoreContextVfp2).live.s 23 = (memCtx m (live.r 0)).fp 23 ∧
     (run ⟨live, m, none⟩ restoreContextVfp2).live.s 24 = (memCtx m (live.r 0)).fp 24 ∧
     (run ⟨live, m, none⟩ restoreContextVfp2).live.s 25 = (memCtx m (live.r 0)).fp 25 ∧
     (run ⟨live, m, none⟩ restoreContextVfp2).live.s 26 = (memCtx m (live.r 0)).fp 26 ∧
     (run ⟨live, m, none⟩ restoreContextVfp2).live.s 27 = (memCtx m (live.r 0)).fp 27 ∧
     (run ⟨live, m, none⟩ restoreContextVfp2).live.s 28 = (memCtx m (live.r 0)).fp 28 ∧
     (run ⟨live, m, none⟩ restoreContextVfp2).live.s 29 = (memCtx m (live.r 0)).fp 29 ∧
     (run ⟨live, m, none⟩ restoreContextVfp2).live.s 30 = (memCtx m (live.r 0)).fp 30 ∧
     (run ⟨live, m, none⟩ restoreContextVfp2).live.s 31 = (memCtx m (live.r 0)).fp 31) ∧
    ((run ⟨live, m, none⟩ restoreContextVfp2).pc = some ((memCtx m (live.r 0)).gp 14)) := by
  simp [run, restoreContextVfp2, restoreRegsGp, restoreRegsFp, step, memCtx,
    gpSlotOffset, fpSlotOffset, GP_REGS, Function.update_apply]

/-- Claim C3: `save_context` (vfp2 build) records the live values of
exactly the ABI-preserved general-purpose registers plus stack pointer
and link register (slots 4-11, 13, 14) and the preserved floating-point
registers s16-s31 (fp slots 16-31); every other slot of the returned
Context (gp 0-3, 12, 15 and fp 0-15) is left holding exactly what the
sret return-slot memory already held at its offset, so when that memory
starts zero-initialized those slots are 0 in the returned Context. -/
theorem save_context_captures_preserved (m : Mem) (live : Live) :
    ((captureVfp2 m live).gp 4 = live.r 4 ∧
     (captureVfp2 m live).gp 5 = live.r 5 ∧
     (captureVfp2 m live).gp 6 = live.r 6 ∧
     (captureVfp2 m live).gp 7 = live.r 7 ∧
     (captureVfp2 m live).gp 8 = live.r 8 ∧
     (captureVfp2 m live).gp 9 = live.r 9 ∧
     (captureVfp2 m live).gp 10 = live.r 10 ∧
     (captureVfp2 m live).gp 11 = live.r 11 ∧
     (captureVfp2 m live).gp 13 = live.r 13 ∧
     (captureVfp2 m live).gp 14 = live.r 14) ∧
    ((captureVfp2 m live).fp 16 = live.s 16 ∧
     (captureVfp2 m live).fp 17 = live.s 17 ∧
     (captureVfp2 m live).fp 18 = live.s 18 ∧
     (captureVfp2 m live).fp 19 = live.s 19 ∧
     (captureVfp2 m live).fp 20 = live.s 20 ∧
     (captureVfp2 m live).fp 21 = live.s 21 ∧
     (captureVfp2 m live).fp 22 = live.s 22 ∧
     (captureVfp2 m live).fp 23 = live.s 23 ∧
     (captureVfp2 m live).fp 24 = live.s 24 ∧
     (captureVfp2 m live).fp 25 = live.s 25 ∧
     (captureVfp2 m live).fp 26 = live.s 26 ∧
     (captureVfp2 m live).fp 27 = live.s 27 ∧
     (captureVfp2 m live).fp 28 = live.s 28 ∧
     (captureVfp2 m live).fp 29 = live.s 29 ∧
     (captureVfp2 m live).fp 30 = live.s 30 ∧
     (captureVfp2 m live).fp 31 = live.s 31) ∧
    ((captureVfp2 m live).gp 0 = m (live.r 0 + gpSlotOffset 0) ∧
     (captureVfp2 m live).gp 1 = m (live.r 0 + gpSlotOffset 1) ∧
     (captureVfp2 m live).gp 2 = m (live.r 0 + gpSlotOffset 2) ∧
     (captureVfp2 m live).gp 3 = m (live.r 0 + gpSlotOffset 3) ∧
     (captureVfp2 m live).gp 12 = m (live.r 0 + gpSlotOffset 12) ∧
     (captureVfp2 m live).gp 15 = m (live.r 0 + gpSlotOffset 15) ∧
     (captureVfp2 m live).fp 0 = m (live.r 0 + fpSlotOffset 0) ∧
     (captureVfp2 m live).fp 1 = m (live.r 0 + fpSlotOffset 1) ∧
     (captureVfp2 m live).fp 2 = m (live.r 0 + fpSlotOffset 2) ∧
     (captureVfp2 m live).fp 3 = m (live.r 0 + fpSlotOffset 3) ∧
     (captureVfp2 m live).fp 4 = m (live.r 0 + fpSlotOffset 4) ∧
     (captureVfp2 m live).fp 5 = m (live.r 0 + fpSlotOffset 5) ∧
     (captureVfp2 m live).fp 6 = m (live.r 0 + fpSlotOffset 6) ∧
     (captureVfp2 m live).fp 7 = m (live.r 0 + fpSlotOffset 7) ∧
     (captureVfp2 m live).fp 8 = m (live.r 0 + fpSlotOffset 8) ∧
     (captureVfp2 m live).fp 9 = m (live.r 0 + fpSlotOffset 9) ∧
     (captureVfp2 m live).fp 10 = m (live.r 0 + fpSlotOffset 10) ∧
     (captureVfp2 m live).fp 11 = m (live.r 0 + fpSlotOffset 11) ∧
     (captureVfp2 m live).fp 12 = m (live.r 0 + fpSlotOffset 12) ∧
     (captureVfp2 m live).fp 13 = m (live.r 0 + fpSlotOffset 13) ∧
     (captureVfp2 m live).fp 14 = m (live.r 0 + fpSlotOffset 14) ∧
     (captureVfp2 m live).fp 15 = m (live.r 0 + fpSlotOffset 15)) ∧
    ((∀ a, m a = 0) →
      ((captureVfp2 m live).gp 0 = 0 ∧
       (captureVfp2 m live).gp 1 = 0 ∧
       (captureVfp2 m live).gp 2 = 0 ∧
       (captureVfp2 m live).gp 3 = 0 ∧
       (captureVfp2 m live).gp 12 = 0 ∧
       (captureVfp2 m live).gp 15 = 0) ∧
      ((captureVfp2 m live).fp 0 = 0 ∧
       (captureVfp2 m live).fp 1 = 0 ∧
       (captureVfp2 m live).fp 2 = 0 ∧
       (captureVfp2 m live).fp 3 = 0 ∧
       (captureVfp2 m live).fp 4 = 0 ∧
       (captureVfp2 m live).fp 5 = 0 ∧
       (captureVfp2 m live).fp 6 = 0 ∧
       (captureVfp2 m live).fp 7 = 0 ∧
       (captureVfp2 m live).fp 8 = 0 ∧
       (captureVfp2 m live).fp 9 = 0 ∧
       (captureVfp2 m live).fp 10 = 0 ∧
       (captureVfp2 m live).fp 11 = 0 ∧
       (captureVfp2 m live).fp 12 = 0 ∧
       (captureVfp2 m live).fp 13 = 0 ∧
       (captureVfp2 m live).fp 14 = 0 ∧
       (captureVfp2 m live).fp 15 = 0)) := by
  refine ⟨?_, ?_, ?_, fun hm => ⟨?_, ?_⟩⟩ <;>
    simp [captureVfp2, run, saveContextVfp2, saveRegsGp, saveRegsFp, step, memCtx,
      gpSlotOffset, fpSlotOffset, GP_REGS, Function.update_apply, *]

/-- Witness for C3: the zero-memory hypothesis discharged at the
constant-zero memory, with live registers holding 50+n / 90+n; the
captured Context has gp slot 4 = 54 and uncaptured gp slot 0 = 0. -/
theorem save_context_captures_preserved_witness :
    ((captureVfp2 (fun _ => 0) ⟨fun n => 50 + n, fun n => 90 + n⟩).gp 4 = 54) ∧
    ((captureVfp2 (fun _ => 0) ⟨fun n => 50 + n, fun n => 90 + n⟩).gp 0 = 0) := by
  obtain ⟨h1, h2, h3, h4⟩ :=
    save_context_captures_preserved (fun _ => 0) ⟨fun n => 50 + n, fun n => 90 + n⟩
  exact ⟨h1.1, (h4 (fun a => rfl)).1.1⟩

end UnwindingArm

namespace UnwindingArm

/-- Claim C5: Capture, Restore and the Storage/Index resolver use
bit-for-bit identical slot layout: every gp access of register N in
every save/restore variant uses base r0 and byte offset 4*N
(`gpSlotOffset`), every fp access of register N uses base r0 and byte
offset 4*(16+N) (`fpSlotOffset`), the save and restore sequences access
exactly the same offsets in the same order, and the index resolver maps
identifier id to the slot at byte offset 4*id (gp range) resp.
4*(16+(id-256)) (fp range) under the `#[repr(C)]` struct layout. -/
theorem layout_bit_for_bit :
    (saveContextVfp2.all usesReprCOffsets = true) ∧
    (restoreContextVfp2.all usesReprCOffsets = true) ∧
    (saveContextNoVfp2.all usesReprCOffsets = true) ∧
    (restoreContextNoVfp2.all usesReprCOffsets = true) ∧
    (saveContextVfp2.filterMap accessOff = restoreContextVfp2.filterMap accessOff) ∧
    (saveContextNoVfp2.filterMap accessOff = restoreContextNoVfp2.filterMap accessOff) ∧
    (∀ id : Nat, id ≤ GP_LAST_REG_NUM →
      slotOffset (resolveReg id) = some (gpSlotOffset id)) ∧
    (∀ id : Nat, FP_REG_NUM_OFFSET ≤ id → id ≤ FP_LAST_REG_NUM →
      slotOffset (resolveReg id) = some (fpSlotOffset (id - FP_REG_NUM_OFFSET))) := by
  refine ⟨by decide, by decide, by decide, by decide, by decide, by decide, ?_, ?_⟩
  · intro id h
    simp [slotOffset, resolveReg, h]
  · intro id h1 h2
    have hg : ¬ id ≤ GP_LAST_REG_NUM := by
      simp only [gp_last_eq]; simp only [fp_off_eq] at h1; omega
    unfold resolveReg
    rw [if_neg hg, if_pos ⟨h1, h2⟩]
    rfl

/-- Witness for C5: the resolver-layout agreement evaluated at
identifier 4 (gp slot 4, byte offset 16) and identifier 260 (fp slot 4,
byte offset 80). -/
theorem layout_bit_for_bit_witness :
    (slotOffset (resolveReg 4) = some (gpSlotOffset 4)) ∧
    (slotOffset (resolveReg 260) = some (fpSlotOffset 4)) := by
  obtain ⟨-, -, -, -, -, -, h7, h8⟩ := layout_bit_for_bit
  exact ⟨h7 4 (by decide), h8 260 (by decide) (by decide)⟩

/-- Claim C6: in the no-vfp2 build, the save/restore sequences contain
no floating-point access at all, so Capture writes no fp slot of the
return-slot memory and Restore reads (and writes) no fp register; and
the general-purpose behaviour is identical to the vfp2 build: the vfp2
sequences restricted to their non-fp instructions ARE the no-vfp2
sequences, the restored gp bank agrees register by register between the
two builds (as does the branch target), and the words Capture leaves at
all sixteen gp slot offsets agree between the two builds. -/
theorem novfp2_conditionality (st : MState) :
    (saveContextNoVfp2.all (fun ins => !(isFpAccess ins)) = true) ∧
    (restoreContextNoVfp2.all (fun ins => !(isFpAccess ins)) = true) ∧
    (saveContextVfp2.filter (fun ins => !(isFpAccess ins)) = saveContextNoVfp2) ∧
    (restoreContextVfp2.filter (fun ins => !(isFpAccess ins)) = restoreContextNoVfp2) ∧
    (∀ j : Nat, (run st restoreContextNoVfp2).live.s j = st.live.s j) ∧
    ((run st saveContextNoVfp2).mem (st.live.r 0 + fpSlotOffset 0)
        = st.mem (st.live.r 0 + fpSlotOffset 0) ∧
     (run st saveContextNoVfp2).mem (st.live.r 0 + fpSlotOffset 1)
        = st.mem (st.live.r 0 + fpSlotOffset 1) ∧
     (run st saveContextNoVfp2).mem (st.live.r 0 + fpSlotOffset 2)
        = st.mem (st.live.r 0 + fpSlotOffset 2) ∧
     (run st saveContextNoVfp2).mem (st.live.r 0 + fpSlotOffset 3)
        = st.mem (st.live.r 0 + fpSlotOffset 3) ∧
     (run st saveContextNoVfp2).mem (st.live.r 0 + fpSlotOffset 4)
        = st.mem (st.live.r 0 + fpSlotOffset 4) ∧
     (run st saveContextNoVfp2).mem (st.live.r 0 + fpSlotOffset 5)
        = st.mem (st.live.r 0 + fpSlotOffset 5) ∧
     (run st saveContextNoVfp2).mem (st.live.r 0 + fpSlotOffset 6)
        = st.mem (st.live.r 0 + fpSlotOffset 6) ∧
     (run st saveContextNoVfp2).mem (st.live.r 0 + fpSlotOffset 7)
        = st.mem (st.live.r 0 + fpSlotOffset 7) ∧
     (run st saveContextNoVfp2).mem (st.live.r 0 + fpSlotOffset 8)
        = st.mem (st.live.r 0 + fpSlotOffset 8) ∧
     (run st saveContextNoVfp2).mem (st.live.r 0 + fpSlotOffset 9)
        = st.mem (st.live.r 0 + fpSlotOffset 9) ∧
     (run st saveContextNoVfp2).mem (st.live.r 0 + fpSlotOffset 10)
        = st.mem (st.live.r 0 + fpSlotOffset 10) ∧
     (run st saveContextNoVfp2).mem (st.live.r 0 + fpSlotOffset 11)
        = st.mem (st.live.r 0 + fpSlotOffset 11) ∧
     (run st saveContextNoVfp2).mem (st.live.r 0 + fpSlotOffset 12)
        = st.mem (st.live.r 0 + fpSlotOffset 12) ∧
     (run st saveContextNoVfp2).mem (st.live.r 0 + fpSlotOffset 13)
        = st.mem (st.live.r 0 + fpSlotOffset 13) ∧
     (run st saveContextNoVfp2).mem (st.live.r 0 + fpSlotOffset 14)
        = st.mem (st.live.r 0 + fpSlotOffset 14) ∧
     (run st saveContextNoVfp2).mem (st.live.r 0 + fpSlotOffset 15)
        = st.mem (st.live.r 0 + fpSlotOffset 15) ∧
     (run st saveContextNoVfp2).mem (st.live.r 0 + fpSlotOffset 16)
        = st.mem (st.live.r 0 + fpSlotOffset 16) ∧
     (run st saveContextNoVfp2).mem (st.live.r 0 + fpSlotOffset 17)
        = st.mem (st.live.r 0 + fpSlotOffset 17) ∧
     (run st saveContextNoVfp2).mem (st.live.r 0 + fpSlotOffset 18)
        = st.mem (st.live.r 0 + fpSlotOffset 18) ∧
     (run st saveContextNoVfp2).mem (st.live.r 0 + fpSlotOffset 19)
        = st.mem (st.live.r 0 + fpSlotOffset 19) ∧
     (run st saveContextNoVfp2).mem (st.live.r 0 + fpSlotOffset 20)
        = st.mem (st.live.r 0 + fpSlotOffset 20) ∧
     (run st saveContextNoVfp2).mem (st.live.r 0 + fpSlotOffset 21)
        = st.mem (st.live.r 0 + fpSlotOffset 21) ∧
     (run st saveContextNoVfp2).mem (st.live.r 0 + fpSlotOffset 22)
        = st.mem (st.live.r 0 + fpSlotOffset 22) ∧
     (run st saveContextNoVfp2).mem (st.live.r 0 + fpSlotOffset 23)
        = st.mem (st.live.r 0 + fpSlotOffset 23) ∧
     (run st saveContextNoVfp2).mem (st.live.r 0 + fpSlotOffset 24)
        = st.mem (st.live.r 0 + fpSlotOffset 24) ∧
     (run st saveContextNoVfp2).mem (st.live.r 0 + fpSlotOffset 25)
        = st.mem (st.live.r 0 + fpSlotOffset 25) ∧
     (run st saveContextNoVfp2).mem (st.live.r 0 + fpSlotOffset 26)
        = st.mem (st.live.r 0 + fpSlotOffset 26) ∧
     (run st saveContextNoVfp2).mem (st.live.r 0 + fpSlotOffset 27)
        = st.mem (st.live.r 0 + fpSlotOffset 27) ∧
     (run st saveContextNoVfp2).mem (st.live.r 0 + fpSlotOffset 28)
        = st.mem (st.live.r 0 + fpSlotOffset 28) ∧
     (run st saveContextNoVfp2).mem (st.live.r 0 + fpSlotOffset 29)
        = st.mem (st.live.r 0 + fpSlotOffset 29) ∧
     (run st saveContextNoVfp2).mem (st.live.r 0 + fpSlotOffset 30)
        = st.mem (st.live.r 0 + fpSlotOffset 30) ∧
     (run st saveContextNoVfp2).mem (st.live.r 0 + fpSlotOffset 31)
        = st.mem (st.live.r 0 + fpSlotOffset 31)) ∧
    (∀ i : Nat, (run st restoreContextNoVfp2).live.r i
        = (run st restoreContextVfp2).live.r i) ∧
    ((run st restoreContextNoVfp2).pc = (run st restoreContextVfp2).pc) ∧
    ((run st saveContextNoVfp2).mem (st.live.r 0 + gpSlotOffset 0)
        = (run st saveContextVfp2).mem (st.live.r 0 + gpSlotOffset 0) ∧
     (run st saveContextNoVfp2).mem (st.live.r 0 + gpSlotOffset 1)
        = (run st saveContextVfp2).mem (st.live.r 0 + gpSlotOffset 1) ∧
     (run st saveContextNoVfp2).mem (st.live.r 0 + gpSlotOffset 2)
        = (run st saveContextVfp2).mem (st.live.r 0 + gpSlotOffset 2) ∧
     (run st saveContextNoVfp2).mem (st.live.r 0 + gpSlotOffset 3)
        = (run st saveContextVfp2).mem (st.live.r 0 + gpSlotOffset 3) ∧
     (run st saveContextNoVfp2).mem (st.live.r 0 + gpSlotOffset 4)
        = (run st saveContextVfp2).mem (st.live.r 0 + gpSlotOffset 4) ∧
     (run st saveContextNoVfp2).mem (st.live.r 0 + gpSlotOffset 5)
        = (run st saveContextVfp2).mem (st.live.r 0 + gpSlotOffset 5) ∧
     (run st saveContextNoVfp2).mem (st.live.r 0 + gpSlotOffset 6)
        = (run st saveContextVfp2).mem (st.live.r 0 + gpSlotOffset 6) ∧
     (run st saveContextNoVfp2).mem (st.live.r 0 + gpSlotOffset 7)
        = (run st saveContextVfp2).mem (st.live.r 0 + gpSlotOffset 7) ∧
     (run st saveContextNoVfp2).mem (st.live.r 0 + gpSlotOffset 8)
        = (run st saveContextVfp2).mem (st.live.r 0 + gpSlotOffset 8) ∧
     (run st saveContextNoVfp2).mem (st.live.r 0 + gpSlotOffset 9)
        = (run st saveContextVfp2).mem (st.live.r 0 + gpSlotOffset 9) ∧
     (run st saveContextNoVfp2).mem (st.live.r 0 + gpSlotOffset 10)
        = (run st saveContextVfp2).mem (st.live.r 0 + gpSlotOffset 10) ∧
     (run st saveContextNoVfp2).mem (st.live.r 0 + gpSlotOffset 11)
        = (run st saveContextVfp2).mem (st.live.r 0 + gpSlotOffset 11) ∧
     (run st saveContextNoVfp2).mem (st.live.r 0 + gpSlotOffset 12)
        = (run st saveContextVfp2).mem (st.live.r 0 + gpSlotOffset 12) ∧
     (run st saveContextNoVfp2).mem (st.live.r 0 + gpSlotOffset 13)
        = (run st saveContextVfp2).mem (st.live.r 0 + gpSlotOffset 13) ∧
     (run st saveContextNoVfp2).mem (st.live.r 0 + gpSlotOffset 14)
        = (run st saveContextVfp2).mem (st.live.r 0 + gpSlotOffset 14) ∧
     (run st saveContextNoVfp2).mem (st.live.r 0 + gpSlotOffset 15)
        = (run st saveContextVfp2).mem (st.live.r 0 + gpSlotOffset 15)) := by
  refine ⟨by decide, by decide, by decide, by decide, fun j => ?_, ?_, fun i => ?_, ?_, ?_⟩ <;>
    simp [run, saveContextNoVfp2, saveContextVfp2, restoreContextNoVfp2, restoreContextVfp2,
      saveRegsGp, saveRegsFp, restoreRegsGp, restoreRegsFp, step,
      gpSlotOffset, fpSlotOffset, GP_REGS, Function.update_apply]

/-- Claim C7: in both builds of `restore_context`, r0 — the register
holding the address of the Context — is never the destination of any
load in the restore sequence, every memory access in the sequence uses
r0 as its base register, and consequently r0 still holds its original
value after the whole sequence (each load reads the Context through the
unclobbered r0), and the sequence writes no memory at all. -/
theorem restore_never_clobbers_base (st : MState) :
    (restoreContextVfp2.all (fun ins => gpDest ins != some 0) = true) ∧
    (restoreContextNoVfp2.all (fun ins => gpDest ins != some 0) = true) ∧
    (restoreContextVfp2.all
      (fun ins => baseReg ins == some 0 || baseReg ins == none) = true) ∧
    (restoreContextNoVfp2.all
      (fun ins => baseReg ins == some 0 || baseReg ins == none) = true) ∧
    ((run st restoreContextVfp2).live.r 0 = st.live.r 0) ∧
    ((run st restoreContextNoVfp2).live.r 0 = st.live.r 0) ∧
    ((run st restoreContextVfp2).mem = st.mem) ∧
    ((run st restoreContextNoVfp2).mem = st.mem) := by
  refine ⟨by decide, by decide, by decide, by decide, ?_, ?_, ?_, ?_⟩ <;>
    simp [run, restoreContextVfp2, restoreContextNoVfp2, restoreRegsGp, restoreRegsFp,
      step, Function.update_apply]

/-- Claim C8: round trip.  For any Context (held in memory at the
address in r0) with arbitrary values in its slots, running
`restore_context` and then immediately running `save_context` at the
resumption point (with a fresh return-slot pointer p2 placed in r0)
yields a Context that agrees with the original on every ABI-preserved
slot: gp 4-11, 13, 14 and fp 16-31. -/
theorem restore_then_capture_round_trip (m : Mem) (live : Live) (p2 : Nat) :
    ((restoreThenCaptureVfp2 m live p2).gp 4 = (memCtx m (live.r 0)).gp 4 ∧
     (restoreThenCaptureVfp2 m live p2).gp 5 = (memCtx m (live.r 0)).gp 5 ∧
     (restoreThenCaptureVfp2 m live p2).gp 6 = (memCtx m (live.r 0)).gp 6 ∧
     (restoreThenCaptureVfp2 m live p2).gp 7 = (memCtx m (live.r 0)).gp 7 ∧
     (restoreThenCaptureVfp2 m live p2).gp 8 = (memCtx m (live.r 0)).gp 8 ∧
     (restoreThenCaptureVfp2 m live p2).gp 9 = (memCtx m (live.r 0)).gp 9 ∧
     (restoreThenCaptureVfp2 m live p2).gp 10 = (memCtx m (live.r 0)).gp 10 ∧
     (restoreThenCaptureVfp2 m live p2).gp 11 = (memCtx m (live.r 0)).gp 11 ∧
     (restoreThenCaptureVfp2 m live p2).gp 13 = (memCtx m (live.r 0)).gp 13 ∧
     (restoreThenCaptureVfp2 m live p2).gp 14 = (memCtx m (live.r 0)).gp 14) ∧
    ((restoreThenCaptureVfp2 m live p2).fp 16 = (memCtx m (live.r 0)).fp 16 ∧
     (restoreThenCaptureVfp2 m live p2).fp 17 = (memCtx m (live.r 0)).fp 17 ∧
     (restoreThenCaptureVfp2 m live p2).fp 18 = (memCtx m (live.r 0)).fp 18 ∧
     (restoreThenCaptureVfp2 m live p2).fp 19 = (memCtx m (live.r 0)).fp 19 ∧
     (restoreThenCaptureVfp2 m live p2).fp 20 = (memCtx m (live.r 0)).fp 20 ∧
     (restoreThenCaptureVfp2 m live p2).fp 21 = (memCtx m (live.r 0)).fp 21 ∧
     (restoreThenCaptureVfp2 m live p2).fp 22 = (memCtx m (live.r 0)).fp 22 ∧
     (restoreThenCaptureVfp2 m live p2).fp 23 = (memCtx m (live.r 0)).fp 23 ∧
     (restoreThenCaptureVfp2 m live p2).fp 24 = (memCtx m (live.r 0)).fp 24 ∧
     (restoreThenCaptureVfp2 m live p2).fp 25 = (memCtx m (live.r 0)).fp 25 ∧
     (restoreThenCaptureVfp2 m live p2).fp 26 = (memCtx m (live.r 0)).fp 26 ∧
     (restoreThenCaptureVfp2 m live p2).fp 27 = (memCtx m (live.r 0)).fp 27 ∧
     (restoreThenCaptureVfp2 m live p2).fp 28 = (memCtx m (live.r 0)).fp 28 ∧
     (restoreThenCaptureVfp2 m live p2).fp 29 = (memCtx m (live.r 0)).fp 29 ∧
     (restoreThenCaptureVfp2 m live p2).fp 30 = (memCtx m (live.r 0)).fp 30 ∧
     (restoreThenCaptureVfp2 m live p2).fp 31 = (memCtx m (live.r 0)).fp 31) := by
  simp [restoreThenCaptureVfp2, run, restoreContextVfp2, restoreRegsGp, restoreRegsFp,
    saveContextVfp2, saveRegsGp, saveRegsFp, step, memCtx,
    gpSlotOffset, fpSlotOffset, GP_REGS, Function.update_apply]

end UnwindingArm
